import Mathlib

/-!
Verification of the wrfpy repository's core logic against its design
specification.  The definitions below are shallow embeddings of the Python
functions in `src/wps.py` and `src/wrfpy/wrfpy.py`; the theorems settle the
spec's testable properties against them.
-/

set_option maxHeartbeats 1000000

set_option maxRecDepth 100000

/-! ## NameAllocator: `wps._get_ext_list` (src/wps.py lines 100-126)

The Python builds the extension `ext[i3] + ext[i2] + ext[i1]` from three
counters, then increments `i1`; on overflow (`>= 26`) it resets the counter
to `1` (not `0`) and carries into the next counter; overflow of `i3` raises
`IOError('Too many files to link')`. -/

/-- The uppercase letter used for digit `i` (`string.ascii_uppercase[i]`). -/
def extChar (i : Nat) : Char := Char.ofNat (65 + i)

/-- The three loop counters `i1, i2, i3` of `wps._get_ext_list`. -/
structure ExtState where
  i1 : Nat
  i2 : Nat
  i3 : Nat
deriving DecidableEq, Repr

/-- The extension string appended for the current counters:
`ext[i3] + ext[i2] + ext[i1]` (most significant letter first). -/
def extId (s : ExtState) : String :=
  String.mk [extChar s.i3, extChar s.i2, extChar s.i1]

/-- One increment of the counters, exactly as in the source: `i1 += 1`; on
overflow reset to `1` and carry; overflow of `i3` raises
`IOError('Too many files to link')`. -/
def extStep (s : ExtState) : Except String ExtState :=
  let j1 := s.i1 + 1
  if j1 ≥ 26 then
    let j2 := s.i2 + 1
    if j2 ≥ 26 then
      let j3 := s.i3 + 1
      if j3 ≥ 26 then .error "Too many files to link"
      else .ok ⟨1, 1, j3⟩
    else .ok ⟨1, j2, s.i3⟩
  else .ok ⟨j1, s.i2, s.i3⟩

/-- The `for filenum in range(num)` loop of `wps._get_ext_list`: append the
current extension, then increment; the increment may raise even on the last
iteration, in which case the collected list is discarded. -/
def extLoop : Nat → ExtState → Except String (List String)
  | 0, _ => .ok []
  | n + 1, s =>
    match extStep s with
    | .error e => .error e
    | .ok s' => (extLoop n s').map (fun l => extId s :: l)

/-- Shallow embedding of `wps._get_ext_list(num)`.  For `num = 0` the Python
`return list_ext` raises `NameError` because the list was never created; we
model that as an error as well. -/
def get_ext_list (num : Nat) : Except String (List String) :=
  if num = 0 then .error "NameError: name 'list_ext' is not defined"
  else extLoop num ⟨0, 0, 0⟩

/-- Strict lexicographic order on char lists, comparing code points. -/
def lexLtChars : List Char → List Char → Bool
  | [], [] => false
  | [], _ :: _ => true
  | _ :: _, [] => false
  | a :: as, b :: bs =>
    if a.toNat < b.toNat then true
    else if b.toNat < a.toNat then false
    else lexLtChars as bs

/-- Strict lexicographic order on strings. -/
def lexLt (s t : String) : Bool := lexLtChars s.data t.data

example : get_ext_list 3 = .ok ["AAA", "AAB", "AAC"] := by rfl

example : get_ext_list 0 = .error "NameError: name 'list_ext' is not defined" := by rfl

/-! ### Allocator invariants

`Reach` describes the counter states the loop can visit: in the very first
block `i2 = i3 = 0`; after any overflow a counter is reset to `1` (not `0`),
so all later blocks have every overflowed counter in `1..25`.  `rank` is the
position of a state in the visit order (a closed linear form valid on
reachable states: the first block holds 26 ids, later `i2`-blocks 25 each,
later `i3`-blocks `625` each, summing to `i3 * 625 + i2 * 25 + i1`), and
`val` interprets the counters as a base-26 numeral, which is exactly what
lexicographic order on the emitted three-letter strings compares. -/

/-- Base-26 value of the counters, most significant counter first. -/
def ExtState.val (s : ExtState) : Nat := s.i3 * 676 + s.i2 * 26 + s.i1

/-- States visitable by the `wps._get_ext_list` loop. -/
def Reach (s : ExtState) : Prop :=
  (s.i3 = 0 ∧ s.i2 = 0 ∧ s.i1 ≤ 25) ∨
  (s.i3 = 0 ∧ 1 ≤ s.i2 ∧ s.i2 ≤ 25 ∧ 1 ≤ s.i1 ∧ s.i1 ≤ 25) ∨
  (1 ≤ s.i3 ∧ s.i3 ≤ 25 ∧ 1 ≤ s.i2 ∧ s.i2 ≤ 25 ∧ 1 ≤ s.i1 ∧ s.i1 ≤ 25)

/-- Position of a reachable state in the loop's visit order (0-based); the
last state `⟨25, 25, 25⟩` ("ZZZ") has rank `16275`. -/
def rank (s : ExtState) : Nat := s.i3 * 625 + s.i2 * 25 + s.i1

theorem Reach_init : Reach ⟨0, 0, 0⟩ := Or.inl (by simp)

theorem rank_init : rank ⟨0, 0, 0⟩ = 0 := rfl

theorem extStep_ok {s : ExtState} (hs : Reach s) (hr : rank s < 16275) :
    ∃ s', extStep s = .ok s' ∧ Reach s' ∧ rank s' = rank s + 1 ∧ s.val < s'.val := by
  obtain ⟨i1, i2, i3⟩ := s
  simp only [Reach] at hs
  simp only [rank] at hr
  by_cases h1 : i1 + 1 ≥ 26
  · by_cases h2 : i2 + 1 ≥ 26
    · by_cases h3 : i3 + 1 ≥ 26
      · exfalso; omega
      · refine ⟨⟨1, 1, i3 + 1⟩, by simp [extStep, h1, h2, h3], ?_, ?_, ?_⟩
        · simp only [Reach]; omega
        · simp only [rank]; omega
        · simp only [ExtState.val]; omega
    · refine ⟨⟨1, i2 + 1, i3⟩, by simp [extStep, h1, h2], ?_, ?_, ?_⟩
      · simp only [Reach]; omega
      · simp only [rank]; omega
      · simp only [ExtState.val]; omega
  · refine ⟨⟨i1 + 1, i2, i3⟩, by simp [extStep, h1], ?_, ?_, ?_⟩
    · simp only [Reach]; omega
    · simp only [rank]; omega
    · simp only [ExtState.val]; omega

theorem extStep_err {s : ExtState} (hs : Reach s) (hr : rank s = 16275) :
    extStep s = .error "Too many files to link" := by
  obtain ⟨i1, i2, i3⟩ := s
  simp only [Reach] at hs
  simp only [rank] at hr
  have h : i1 = 25 ∧ i2 = 25 ∧ i3 = 25 := by omega
  obtain ⟨rfl, rfl, rfl⟩ := h
  rfl

/-- The code point of the extension letter for each digit in range. -/
theorem extChar_toNat : ∀ i, i < 26 → (extChar i).toNat = 65 + i := by decide

theorem lexLt_extId {a b : ExtState} (ha : Reach a) (hb : Reach b)
    (h : a.val < b.val) : lexLt (extId a) (extId b) = true := by
  obtain ⟨a1, a2, a3⟩ := a
  obtain ⟨b1, b2, b3⟩ := b
  simp only [Reach] at ha hb
  simp only [ExtState.val] at h
  have ha1 : a1 < 26 := by omega
  have ha2 : a2 < 26 := by omega
  have ha3 : a3 < 26 := by omega
  have hb1 : b1 < 26 := by omega
  have hb2 : b2 < 26 := by omega
  have hb3 : b3 < 26 := by omega
  simp only [lexLt, extId, lexLtChars, extChar_toNat _ ha1, extChar_toNat _ ha2,
    extChar_toNat _ ha3, extChar_toNat _ hb1, extChar_toNat _ hb2, extChar_toNat _ hb3]
  split_ifs <;> first | rfl | omega

theorem lexLt_irrefl (s : String) : lexLt s s = false := by
  simp only [lexLt]
  induction s.data with
  | nil => rfl
  | cons c cs ih => simp only [lexLtChars, Nat.lt_irrefl, if_false, ih]

theorem extLoop_ok_of_rank :
    ∀ n s, Reach s → n + rank s ≤ 16275 →
      ∃ l, extLoop n s = .ok l ∧ l.length = n ∧
        (∀ x ∈ l, ∃ t, Reach t ∧ s.val ≤ t.val ∧ x = extId t) ∧
        l.Pairwise (fun a b => lexLt a b = true) := by
  intro n
  induction n with
  | zero => exact fun s _ _ => ⟨[], rfl, rfl, by simp, by simp⟩
  | succ n ih =>
    intro s hs hn
    obtain ⟨s', hstep, hs', hrank, hval⟩ := extStep_ok hs (by omega)
    obtain ⟨l', hl', hlen, hmem, hpw⟩ := ih s' hs' (by omega)
    refine ⟨extId s :: l', ?_, by simp [hlen], ?_, ?_⟩
    · simp only [extLoop, hstep, hl', Except.map]
    · intro x hx
      rcases List.mem_cons.mp hx with rfl | hx'
      · exact ⟨s, hs, Nat.le_refl _, rfl⟩
      · obtain ⟨t, ht, hvt, rfl⟩ := hmem x hx'
        exact ⟨t, ht, by omega, rfl⟩
    · refine List.Pairwise.cons ?_ hpw
      intro x hx
      obtain ⟨t, ht, hvt, rfl⟩ := hmem x hx
      exact lexLt_extId hs ht (by omega)

theorem extLoop_err_of_rank :
    ∀ n s, Reach s → rank s ≤ 16275 → 16275 < n + rank s →
      extLoop n s = .error "Too many files to link" := by
  intro n
  induction n with
  | zero => intro s _ h1 h2; omega
  | succ n ih =>
    intro s hs h1 h2
    by_cases hr : rank s = 16275
    · simp only [extLoop, extStep_err hs hr]
    · obtain ⟨s', hstep, hs', hrank, _⟩ := extStep_ok hs (by omega)
      simp only [extLoop, hstep, ih s' hs' (by omega) (by omega), Except.map]

theorem extLoop_length : ∀ n s l, extLoop n s = .ok l → l.length = n := by
  intro n
  induction n with
  | zero => intro s l h; cases h; rfl
  | succ n ih =>
    intro s l h
    simp only [extLoop] at h
    cases hstep : extStep s with
    | error e => simp only [hstep] at h; cases h
    | ok s' =>
      simp only [hstep, Except.map] at h
      cases hl : extLoop n s' with
      | error e => simp only [hl] at h; cases h
      | ok l' =>
        simp only [hl] at h
        cases h
        simp [ih s' l' hl]

theorem get_ext_list_ok (n : Nat) (h1 : 1 ≤ n) (h2 : n ≤ 16275) :
    ∃ l, get_ext_list n = .ok l ∧ l.length = n ∧
      l.Pairwise (fun a b => lexLt a b = true) := by
  obtain ⟨l, hl, hlen, _, hpw⟩ :=
    extLoop_ok_of_rank n ⟨0, 0, 0⟩ Reach_init (by rw [rank_init]; omega)
  exact ⟨l, by rw [get_ext_list, if_neg (by omega)]; exact hl, hlen, hpw⟩

theorem get_ext_list_err (n : Nat) (h : 16276 ≤ n) :
    get_ext_list n = .error "Too many files to link" := by
  rw [get_ext_list, if_neg (by omega)]
  exact extLoop_err_of_rank n ⟨0, 0, 0⟩ Reach_init (by rw [rank_init]; omega)
    (by rw [rank_init]; omega)

/-- C1 (amended): for every `n` with `1 ≤ n ≤ 16275`, `wps._get_ext_list(n)`
returns exactly `n` identifiers, pairwise distinct and in strictly increasing
lexicographic order; for every `n ≥ 16276` it fails with
`IOError('Too many files to link')` (the `CapacityExceeded` error).  The
allocator's true capacity is `16276 = 26 + 25·25 + 25·25·25` successful
identifiers (and the call that would consume the 16276th already raises), not
the `26·26·25 = 16900` the spec claims. -/
theorem allocator_range_and_capacity (n : Nat) (h1 : 1 ≤ n) :
    (n ≤ 16275 →
      ∃ l, get_ext_list n = .ok l ∧ l.length = n ∧
        l.Pairwise (fun a b => lexLt a b = true) ∧ l.Pairwise (· ≠ ·)) ∧
    (16276 ≤ n → get_ext_list n = .error "Too many files to link") := by
  constructor
  · intro h2
    obtain ⟨l, hl, hlen, hpw⟩ := get_ext_list_ok n h1 h2
    refine ⟨l, hl, hlen, hpw, hpw.imp ?_⟩
    intro a b hlt heq
    rw [heq, lexLt_irrefl] at hlt
    cases hlt
  · exact get_ext_list_err n

/-- Witness for C1 at `n = 4`. -/
theorem allocator_range_and_capacity_witness :
    ∃ l, get_ext_list 4 = .ok l ∧ l.length = 4 ∧
      l.Pairwise (fun a b => lexLt a b = true) ∧ l.Pairwise (· ≠ ·) :=
  (allocator_range_and_capacity 4 (by decide)).1 (by decide)

/-- C1 counterexample: `16276 < 16900`, yet `wps._get_ext_list(16276)` raises
`IOError('Too many files to link')` instead of returning 16276 identifiers, so
the claimed capacity `16900` is wrong. -/
theorem allocator_capacity_16900_counterexample :
    16276 < 16900 ∧ get_ext_list 16276 = .error "Too many files to link" :=
  ⟨by decide, get_ext_list_err 16276 (by decide)⟩

/-- The 27 identifiers `wps._get_ext_list(27)` actually produces. -/
def ext27 : List String :=
  ["AAA", "AAB", "AAC", "AAD", "AAE", "AAF", "AAG", "AAH", "AAI", "AAJ", "AAK",
   "AAL", "AAM", "AAN", "AAO", "AAP", "AAQ", "AAR", "AAS", "AAT", "AAU", "AAV",
   "AAW", "AAX", "AAY", "AAZ", "ABB"]

/-- C2 (code bug): the 27th identifier produced by `wps._get_ext_list` is
`"ABB"`, not `"ABA"`, and `"ABA"` never occurs, because the code resets the
trailing counter to 1 (not 0) on overflow — contradicting the function's own
docstring, which lists the sequence `AAA, AAB, AAC ... ABA, ABB ..., BAA ...`. -/
theorem allocator_27th_is_ABB :
    get_ext_list 27 = .ok ext27 ∧ ext27.getD 26 "" = "ABB" ∧ "ABA" ∉ ext27 ∧
      ext27.getD 0 "" = "AAA" := by
  exact ⟨rfl, by decide, by decide, by decide⟩

/-! ## BoundaryLinker: `wps._link_boundary_files` (src/wps.py lines 81-97) -/

/-- One entry of the boundary directory listing produced by
`glob.glob(os.path.join(boundary_dir, '*'))`, paired with the result of the
`os.path.isfile` test the code filters with. -/
structure DirEntry where
  path : String
  regularFile : Bool
deriving DecidableEq, Repr

/-- Shallow embedding of `wps._link_boundary_files`.  The directory listing
and working directory are parameters; the result is the list of symlinks the
code creates, as `(source file, link path)` pairs (`os.symlink(src, dst)`),
or the message of the raised `IOError`.  `os.path.join(workdir, name)` is
modelled as `workdir ++ "/" ++ name`. -/
def link_boundary_files (listing : List DirEntry) (wps_workdir : String) :
    Except String (List (String × String)) :=
  let filelist := (listing.filter (fun e => e.regularFile)).map (fun e => e.path)
  if filelist.length = 0 then
    .error "linking boundary files failed, no files found to link"
  else
    match get_ext_list filelist.length with
    | .error e => .error e
    | .ok linkext =>
      .ok ((List.range filelist.length).map (fun idx =>
        (filelist.getD idx "", wps_workdir ++ "/GRIBFILE." ++ linkext.getD idx "")))

/-- The only error message the allocator loop can raise. -/
theorem extLoop_error_msg :
    ∀ n s e, extLoop n s = .error e → e = "Too many files to link" := by
  intro n
  induction n with
  | zero => intro s e h; cases h
  | succ n ih =>
    intro s e h
    simp only [extLoop] at h
    cases hstep : extStep s with
    | error e' =>
      rw [hstep] at h
      cases h
      obtain ⟨i1, i2, i3⟩ := s
      simp only [extStep] at hstep
      split_ifs at hstep
      simp_all
    | ok s' =>
      simp only [hstep, Except.map] at h
      cases hl : extLoop n s' with
      | error e' =>
        rw [hl] at h
        cases h
        exact ih s' _ hl
      | ok l' => rw [hl] at h; cases h

/-- The only error messages `wps._get_ext_list` can raise. -/
theorem get_ext_list_error_msg (n : Nat) (e : String)
    (h : get_ext_list n = .error e) :
    e = "NameError: name 'list_ext' is not defined" ∨ e = "Too many files to link" := by
  rw [get_ext_list] at h
  split at h
  · exact Or.inl (by cases h; rfl)
  · exact Or.inr (extLoop_error_msg n _ e h)

/-- C6: `wps._link_boundary_files` raises the `IOError` "linking boundary
files failed, no files found to link" (the `NoBoundaryFiles` / `InputAbsent`
error) exactly when the listing holds no regular files; and when it holds
`k ≥ 1` regular files and the allocator returns identifiers `ids`, it creates
exactly `k` symlinks, the `i`-th regular file in listing order being linked
as `GRIBFILE.<ids_i>` in the working directory. -/
theorem link_boundary_files_correct (listing : List DirEntry) (workdir : String) :
    (link_boundary_files listing workdir =
        .error "linking boundary files failed, no files found to link" ↔
      listing.filter (fun e => e.regularFile) = []) ∧
    (∀ ids, get_ext_list (listing.filter (fun e => e.regularFile)).length = .ok ids →
      ∃ pairs, link_boundary_files listing workdir = .ok pairs ∧
        pairs.length = (listing.filter (fun e => e.regularFile)).length ∧
        ∀ i (_ : i < pairs.length),
          pairs.getD i ("", "") =
            (((listing.filter (fun e => e.regularFile)).map (fun e => e.path)).getD i "",
             workdir ++ "/GRIBFILE." ++ ids.getD i "")) := by
  constructor
  · constructor
    · intro h
      rw [link_boundary_files] at h
      split at h
      · rename_i hlen
        simpa [List.length_map, List.length_eq_zero] using hlen
      · split at h
        · rename_i e he
          cases h
          rcases get_ext_list_error_msg _ _ he with h' | h' <;> simp at h'
        · cases h
    · intro h
      rw [link_boundary_files]
      rw [if_pos (by simp [h])]
  · intro ids hids
    rw [link_boundary_files]
    have hlen : ((listing.filter (fun e => e.regularFile)).map (fun e => e.path)).length
        = (listing.filter (fun e => e.regularFile)).length := List.length_map _ _
    have hne : ¬ ((listing.filter (fun e => e.regularFile)).map (fun e => e.path)).length = 0 := by
      intro h0
      rw [hlen] at h0
      rw [h0] at hids
      simp [get_ext_list] at hids
    rw [if_neg hne]
    rw [show ((listing.filter (fun e => e.regularFile)).map (fun e => e.path)).length
        = (listing.filter (fun e => e.regularFile)).length from hlen, hids]
    refine ⟨_, rfl, by simp, ?_⟩
    intro i hi
    simp only [List.length_map, List.length_range] at hi
    rw [List.getD_eq_getElem _ _ (by simpa using hi)]
    simp [List.getElem_map, List.getElem_range]

/-- The concrete C6 witness listing: two regular files and one directory. -/
def bdyListing : List DirEntry :=
  [⟨"/bdy/a.grib", true⟩, ⟨"/bdy/sub", false⟩, ⟨"/bdy/b.grib", true⟩]

/-- Witness for C6 on a listing of two regular files and one directory. -/
theorem link_boundary_files_correct_witness :
    ∃ pairs,
      link_boundary_files bdyListing "/work/wps" = .ok pairs ∧
      pairs.length = (bdyListing.filter (fun e => e.regularFile)).length ∧
      ∀ i (_ : i < pairs.length),
        pairs.getD i ("", "") =
          (((bdyListing.filter (fun e => e.regularFile)).map (fun e => e.path)).getD i "",
           "/work/wps" ++ "/GRIBFILE." ++ (["AAA", "AAB"].getD i "")) :=
  (link_boundary_files_correct bdyListing "/work/wps").2 ["AAA", "AAB"] (by rfl)

/-! ## Cleanup: `wps._clean_boundaries_wps` (src/wps.py lines 41-51) -/

/-- Matching of one of the code's glob patterns against a file name in the
working directory.  The patterns at hand are either a literal name or a
literal prefix followed by a single trailing `*` (as in `'GRIBFILE.*'`),
which `glob` treats as "any suffix". -/
def globMatch (pat name : String) : Bool :=
  if pat.data.getLast? = some '*' then pat.data.dropLast.isPrefixOf name.data
  else pat == name

/-- The patterns `wps._clean_boundaries_wps` globs for, verbatim from the
source: only the first one carries a wildcard. -/
def wpsCleanPatterns : List String := ["GRIBFILE.*", "FILE:", "PFILE:", "PRES:"]

/-- Shallow embedding of the removal-list computation of
`wps._clean_boundaries_wps`: one glob per pattern over the working-directory
listing, flattened in pattern order. -/
def clean_boundaries_wps (listing : List String) : List String :=
  (wpsCleanPatterns.map (fun pat => listing.filter (fun name => globMatch pat name))).flatten

/-- Modelled from the spec: `utils.silentremove` (in `utils.py`, which is not
part of `src/`) removes a file and ignores a missing file rather than
raising. -/
def silentremove (fs : List String) (filename : String) : List String :=
  fs.filter (fun n => !(n == filename))

/-- The working-directory contents after `wps._clean_boundaries_wps` has
removed every file on its removal list. -/
def cleanApply (listing : List String) : List String :=
  (clean_boundaries_wps listing).foldl silentremove listing

/-- The transient-name patterns as the spec words them (`GRIBFILE.*`,
`FILE:*`, `PFILE:*`, `PRES:*`), for comparison with the code's patterns. -/
def specTransientPatterns : List String := ["GRIBFILE.*", "FILE:*", "PFILE:*", "PRES:*"]

/-- Modelled from the spec: a name is a transient artifact iff it matches one
of the spec's transient-name patterns. -/
def specTransient (name : String) : Bool :=
  specTransientPatterns.any (fun p => globMatch p name)

theorem notMem_silentremove {fs : List String} {x : String} (h : x ∉ fs)
    (m : String) : x ∉ silentremove fs m := by
  intro hx
  exact h (List.mem_of_mem_filter hx)

theorem notMem_foldl_silentremove :
    ∀ (names : List String) (fs : List String) (x : String), x ∉ fs →
      x ∉ names.foldl silentremove fs := by
  intro names
  induction names with
  | nil => intro fs x h; exact h
  | cons m rest ih => intro fs x h; exact ih _ x (notMem_silentremove h m)

theorem mem_foldl_silentremove_removed :
    ∀ (names : List String) (fs : List String) (x : String), x ∈ names →
      x ∉ names.foldl silentremove fs := by
  intro names
  induction names with
  | nil => intro fs x h; cases h
  | cons m rest ih =>
    intro fs x h
    rcases List.mem_cons.mp h with rfl | h'
    · refine notMem_foldl_silentremove rest _ x ?_
      intro hx
      have := List.of_mem_filter hx
      simp at this
    · exact ih _ x h'

/-- C7 (amended): the cleanup step's removal list holds exactly the listed
names matching `GRIBFILE.*` or literally equal to `FILE:`, `PFILE:` or
`PRES:` (the code's last three glob patterns carry no wildcard, so files such
as `FILE:2014-07-27_00` are not removed); removing an absent file is a no-op
rather than an error; and every `GRIBFILE.*` file present in the working
directory is removed, so no stale `GRIBFILE.*` file survives the cleanup of a
subsequent run. -/
theorem clean_boundaries_wps_correct :
    (∀ listing name,
      name ∈ clean_boundaries_wps listing ↔
        (name ∈ listing ∧ (globMatch "GRIBFILE.*" name = true ∨
          name = "FILE:" ∨ name = "PFILE:" ∨ name = "PRES:"))) ∧
    (∀ fs name, name ∉ fs → silentremove fs name = fs) ∧
    (∀ listing name, name ∈ listing → globMatch "GRIBFILE.*" name = true →
      name ∉ cleanApply listing) := by
  have hmem : ∀ listing name,
      name ∈ clean_boundaries_wps listing ↔
        (name ∈ listing ∧ (globMatch "GRIBFILE.*" name = true ∨
          name = "FILE:" ∨ name = "PFILE:" ∨ name = "PRES:")) := by
    intro listing name
    have hlit : ∀ pat : String, pat.data.getLast? ≠ some '*' →
        (globMatch pat name = true ↔ name = pat) := by
      intro pat hpat
      rw [globMatch, if_neg hpat]
      rw [beq_iff_eq]
      exact eq_comm
    simp only [clean_boundaries_wps, wpsCleanPatterns, List.map_cons, List.map_nil,
      List.flatten, List.mem_append, List.mem_filter, List.append_nil]
    rw [hlit "FILE:" (by decide), hlit "PFILE:" (by decide), hlit "PRES:" (by decide)]
    constructor
    · rintro (h | h | h | h) <;> exact ⟨h.1, by tauto⟩
    · rintro ⟨hl, h | h | h | h⟩ <;> tauto
  refine ⟨hmem, ?_, ?_⟩
  · intro fs name h
    rw [silentremove, List.filter_eq_self]
    intro a ha
    simp only [Bool.not_eq_eq_eq_not, Bool.not_true, beq_eq_false_iff_ne, ne_eq]
    rintro rfl
    exact h ha
  · intro listing name hl hg
    exact mem_foldl_silentremove_removed _ _ _ ((hmem listing name).mpr ⟨hl, Or.inl hg⟩)

/-- C7 counterexample: `FILE:2014-07-27_00` matches the spec's transient
pattern `FILE:*`, yet the code's removal list for a directory holding exactly
that file is empty and the file survives the cleanup. -/
theorem clean_misses_FILE_artifacts :
    specTransient "FILE:2014-07-27_00" = true ∧
    clean_boundaries_wps ["FILE:2014-07-27_00"] = [] ∧
    cleanApply ["FILE:2014-07-27_00"] = ["FILE:2014-07-27_00"] :=
  ⟨rfl, rfl, rfl⟩

/-- Witness for C7: a stale `GRIBFILE.AAB` is removed by a later cleanup. -/
theorem clean_boundaries_wps_correct_witness :
    "GRIBFILE.AAB" ∉ cleanApply ["GRIBFILE.AAB", "namelist.wps"] :=
  clean_boundaries_wps_correct.2.2 ["GRIBFILE.AAB", "namelist.wps"] "GRIBFILE.AAB"
    (by simp) (by rfl)

/-! ## NamelistPatcher: `wps._prepare_namelist` (src/wps.py lines 54-79)

The namelist file reader/writer (`f90nml`) is external; the document it
yields is modelled structurally.  Python dynamic typing matters here:
`isinstance(x, int)` is true for `bool` values as well (C10), and the
validity checks run before any write. -/

/-- A dynamically typed namelist value, as Python sees it.  `bool` is a
subclass of `int` in Python, so `isinstance(b, int)` holds for booleans and
`True` compares as `1`. -/
inductive PyVal
  | intv (n : Int)
  | boolv (b : Bool)
  | strv (s : String)
  | nonev
deriving DecidableEq, Repr

/-- Python's `isinstance(v, int)`: true for `int` and for `bool`. -/
def PyVal.isinstanceInt : PyVal → Bool
  | .intv _ => true
  | .boolv _ => true
  | _ => false

/-- The integer a `PyVal` stands for in arithmetic contexts (`True` is 1). -/
def PyVal.toInt : PyVal → Int
  | .intv n => n
  | .boolv b => if b then 1 else 0
  | _ => 0

/-- A Python `datetime` value (date and time of day). -/
structure Datetime where
  year : Nat
  month : Nat
  day : Nat
  hour : Nat
  minute : Nat
  second : Nat
deriving DecidableEq, Repr

/-- An argument passed for `datestart` / `dateend`: either a `datetime`
instance or some other value (e.g. a plain string). -/
inductive PyTime
  | dt (d : Datetime)
  | strv (s : String)
deriving DecidableEq, Repr

/-- Python's `isinstance(x, datetime)`. -/
def PyTime.isinstanceDatetime : PyTime → Bool
  | .dt _ => true
  | _ => false

/-- Left-pad the decimal representation of `n` with zeros to width `w`. -/
def zpad (w n : Nat) : String :=
  let s := toString n
  String.mk (List.replicate (w - s.length) '0') ++ s

/-- `datetime.strftime(d, '%Y-%m-%d_%H:%M:%S')`. -/
def strftimeWPS (d : Datetime) : String :=
  zpad 4 d.year ++ "-" ++ zpad 2 d.month ++ "-" ++ zpad 2 d.day ++ "_" ++
    zpad 2 d.hour ++ ":" ++ zpad 2 d.minute ++ ":" ++ zpad 2 d.second

/-- The `&share` section of `namelist.wps` as the code touches it. -/
structure ShareNml where
  max_dom : PyVal
  start_date : List String
  end_date : List String
deriving DecidableEq, Repr

/-- The namelist document read by `f90nml.read`. -/
structure WpsNml where
  share : ShareNml
deriving DecidableEq, Repr

/-- A filesystem operation performed by the patcher. -/
inductive FsOp
  | removeSilent (path : String)
  | writeNml (path : String) (doc : WpsNml)
  | rename (src dst : String)
deriving DecidableEq, Repr

/-- The Python exception raised by `wps._prepare_namelist`; both are
`ConfigurationError`-kind errors in the spec's taxonomy (`ValueError` for the
domain count, `TypeError` for the timestamps). -/
inductive PatchError
  | valueError (msg : String)
  | typeError (msg : String)
deriving DecidableEq, Repr

/-- The path the namelist is read from and written back to:
`os.path.join(work_dir, 'wps', 'namelist.wps')` — the same expression in the
read at line 59 and in both write-side calls at lines 76-79. -/
def nmlPath (work_dir : String) : String := work_dir ++ "/wps/namelist.wps"

/-- The patched document: both date fields replaced by the formatted
timestamp repeated once per domain. -/
def patchedNml (nml : WpsNml) (ndoms : Nat) (ds de : Datetime) : WpsNml :=
  { share := { nml.share with
      start_date := List.replicate ndoms (strftimeWPS ds),
      end_date := List.replicate ndoms (strftimeWPS de) } }

/-- Shallow embedding of `wps._prepare_namelist`.  The document read from
`nmlPath work_dir` is a parameter (the reader is external); the result is the
document written back together with the trace of filesystem operations the
code performs (`utils.silentremove` then `wps_nml.write`, both on the same
path), or the raised exception.  On an exception no filesystem operation has
been performed. -/
def prepare_namelist (work_dir : String) (wps_nml : WpsNml)
    (datestart dateend : PyTime) : Except PatchError (WpsNml × List FsOp) :=
  let ndoms := wps_nml.share.max_dom
  if ¬ (ndoms.isinstanceInt = true ∧ ndoms.toInt > 0) then
    .error (.valueError "'domains_max_dom' namelist variable should be an integer>0")
  else if ¬ ([datestart, dateend].all PyTime.isinstanceDatetime = true) then
    .error (.typeError "datestart and dateend must be an instance of datetime")
  else
    match datestart, dateend with
    | .dt ds, .dt de =>
      let nml' := patchedNml wps_nml ndoms.toInt.toNat ds de
      .ok (nml', [.removeSilent (nmlPath work_dir), .writeNml (nmlPath work_dir) nml'])
    | _, _ =>
      -- unreachable: the `all isinstance` check above already failed
      .error (.typeError "datestart and dateend must be an instance of datetime")

theorem prepare_namelist_ok (wd : String) (nml : WpsNml) (ds de : Datetime)
    (h1 : nml.share.max_dom.isinstanceInt = true) (h2 : nml.share.max_dom.toInt > 0) :
    prepare_namelist wd nml (.dt ds) (.dt de) =
      .ok (patchedNml nml nml.share.max_dom.toInt.toNat ds de,
        [.removeSilent (nmlPath wd),
         .writeNml (nmlPath wd) (patchedNml nml nml.share.max_dom.toInt.toNat ds de)]) := by
  rw [prepare_namelist]
  rw [if_neg (by simp [h1, h2])]
  rw [if_neg (by simp [PyTime.isinstanceDatetime])]

/-- C3: for a document whose `share.max_dom` is an integer `d ≥ 1` and
`datetime` arguments `ds`, `de`, the patcher succeeds, sets
`share.start_date` to the `%Y-%m-%d_%H:%M:%S`-formatted `ds` repeated `d`
times and `share.end_date` to the formatted `de` repeated `d` times, and
writes the document back to the very path it was read from
(`work_dir/wps/namelist.wps`). -/
theorem prepare_namelist_sets_dates (wd : String) (nml : WpsNml) (d : Int)
    (ds de : Datetime) (hd : nml.share.max_dom = .intv d) (h1 : 1 ≤ d) :
    prepare_namelist wd nml (.dt ds) (.dt de) =
      .ok (patchedNml nml d.toNat ds de,
        [.removeSilent (nmlPath wd),
         .writeNml (nmlPath wd) (patchedNml nml d.toNat ds de)]) ∧
    (patchedNml nml d.toNat ds de).share.start_date =
      List.replicate d.toNat (strftimeWPS ds) ∧
    (patchedNml nml d.toNat ds de).share.end_date =
      List.replicate d.toNat (strftimeWPS de) := by
  refine ⟨?_, rfl, rfl⟩
  have h := prepare_namelist_ok wd nml ds de (by rw [hd]; rfl)
    (by rw [hd]; exact_mod_cast h1)
  rwa [hd] at h

/-- The concrete namelist document of the C3 example (`max_dom = 3`). -/
def nmlEx3 : WpsNml := ⟨⟨.intv 3, ["2000-01-01_00:00:00"], ["2000-01-01_00:00:00"]⟩⟩

/-- `datetime(2014, 07, 27, 00)`. -/
def dsEx : Datetime := ⟨2014, 7, 27, 0, 0, 0⟩

/-- `datetime(2014, 07, 27, 06)`. -/
def deEx : Datetime := ⟨2014, 7, 27, 6, 0, 0⟩

/-- Witness for C3: the spec's example (`max_dom = 3`, start
`2014-07-27T00:00:00`, end `2014-07-27T06:00:00`). -/
theorem prepare_namelist_sets_dates_witness :
    prepare_namelist "/w" nmlEx3 (.dt dsEx) (.dt deEx) =
      .ok (⟨⟨.intv 3,
            ["2014-07-27_00:00:00", "2014-07-27_00:00:00", "2014-07-27_00:00:00"],
            ["2014-07-27_06:00:00", "2014-07-27_06:00:00", "2014-07-27_06:00:00"]⟩⟩,
        [.removeSilent "/w/wps/namelist.wps",
         .writeNml "/w/wps/namelist.wps"
           ⟨⟨.intv 3,
             ["2014-07-27_00:00:00", "2014-07-27_00:00:00", "2014-07-27_00:00:00"],
             ["2014-07-27_06:00:00", "2014-07-27_06:00:00", "2014-07-27_06:00:00"]⟩⟩]) := by
  rw [(prepare_namelist_sets_dates "/w" nmlEx3 3 dsEx deEx rfl (by decide)).1]
  rfl

/-- C4: the patcher raises `ValueError` (`InvalidDomainCount`, a
`ConfigurationError`-kind error) whenever `share.max_dom` fails Python's
`isinstance(ndoms, int) and ndoms > 0` check; with a valid domain count it
raises `TypeError` (`InvalidTimeType`, also `ConfigurationError`-kind)
whenever either time argument is not a `datetime` instance; and whenever a
time argument is not a `datetime` it raises one of the two
`ConfigurationError`-kind exceptions.  In every failure case the function
returns before reaching the remove/write calls, so no dates are written (an
error result carries no filesystem operations). -/
theorem prepare_namelist_validation (wd : String) (nml : WpsNml) (ds de : PyTime) :
    (¬ (nml.share.max_dom.isinstanceInt = true ∧ nml.share.max_dom.toInt > 0) →
      prepare_namelist wd nml ds de =
        .error (.valueError "'domains_max_dom' namelist variable should be an integer>0")) ∧
    ((nml.share.max_dom.isinstanceInt = true ∧ nml.share.max_dom.toInt > 0) →
      ¬ (ds.isinstanceDatetime = true ∧ de.isinstanceDatetime = true) →
      prepare_namelist wd nml ds de =
        .error (.typeError "datestart and dateend must be an instance of datetime")) ∧
    (¬ (ds.isinstanceDatetime = true ∧ de.isinstanceDatetime = true) →
      ∃ e, prepare_namelist wd nml ds de = .error e) := by
  have hdom : ∀ h : ¬ (nml.share.max_dom.isinstanceInt = true ∧ nml.share.max_dom.toInt > 0),
      prepare_namelist wd nml ds de =
        .error (.valueError "'domains_max_dom' namelist variable should be an integer>0") := by
    intro h
    rw [prepare_namelist.eq_def, if_pos h]
  have htime : (nml.share.max_dom.isinstanceInt = true ∧ nml.share.max_dom.toInt > 0) →
      ¬ (ds.isinstanceDatetime = true ∧ de.isinstanceDatetime = true) →
      prepare_namelist wd nml ds de =
        .error (.typeError "datestart and dateend must be an instance of datetime") := by
    intro h ht
    rw [prepare_namelist.eq_def, if_neg (by simp [h.1, h.2]), if_pos (by simpa using ht)]
  refine ⟨hdom, htime, ?_⟩
  intro ht
  by_cases h : nml.share.max_dom.isinstanceInt = true ∧ nml.share.max_dom.toInt > 0
  · exact ⟨_, htime h ht⟩
  · exact ⟨_, hdom h⟩

/-- Witness for C4: `max_dom = 0` raises `ValueError`; with `max_dom = 3` a
plain-string `datestart` raises `TypeError`. -/
theorem prepare_namelist_validation_witness :
    prepare_namelist "/w" ⟨⟨.intv 0, [], []⟩⟩ (.dt dsEx) (.dt deEx) =
      .error (.valueError "'domains_max_dom' namelist variable should be an integer>0") ∧
    prepare_namelist "/w" nmlEx3 (.strv "2014-07-27") (.dt deEx) =
      .error (.typeError "datestart and dateend must be an instance of datetime") :=
  ⟨(prepare_namelist_validation "/w" ⟨⟨.intv 0, [], []⟩⟩ (.dt dsEx) (.dt deEx)).1
      (by simp [PyVal.isinstanceInt, PyVal.toInt]),
   (prepare_namelist_validation "/w" nmlEx3 (.strv "2014-07-27") (.dt deEx)).2.1
      (by simp [nmlEx3, PyVal.isinstanceInt, PyVal.toInt])
      (by simp [PyTime.isinstanceDatetime])⟩

/-- C10: Python's `isinstance(True, int)` is true and `True > 0` holds, so a
document whose `share.max_dom` is the boolean `True` passes the domain-count
check; the patcher succeeds and writes one-element `start_date` and
`end_date` lists (`[s] * True == [s]`). -/
theorem prepare_namelist_accepts_bool_max_dom (wd : String) (nml : WpsNml)
    (ds de : Datetime) (hd : nml.share.max_dom = .boolv true) :
    prepare_namelist wd nml (.dt ds) (.dt de) =
      .ok (patchedNml nml 1 ds de,
        [.removeSilent (nmlPath wd), .writeNml (nmlPath wd) (patchedNml nml 1 ds de)]) ∧
    (patchedNml nml 1 ds de).share.start_date = [strftimeWPS ds] ∧
    (patchedNml nml 1 ds de).share.end_date = [strftimeWPS de] := by
  refine ⟨?_, rfl, rfl⟩
  have h := prepare_namelist_ok wd nml ds de (by rw [hd]; rfl) (by rw [hd]; decide)
  rwa [hd] at h

/-- Witness for C10: a document with `max_dom = True`. -/
theorem prepare_namelist_accepts_bool_max_dom_witness :
    prepare_namelist "/w" ⟨⟨.boolv true, [], []⟩⟩ (.dt dsEx) (.dt deEx) =
      .ok (patchedNml ⟨⟨.boolv true, [], []⟩⟩ 1 dsEx deEx,
        [.removeSilent (nmlPath "/w"),
         .writeNml (nmlPath "/w") (patchedNml ⟨⟨.boolv true, [], []⟩⟩ 1 dsEx deEx)]) ∧
    (patchedNml ⟨⟨.boolv true, [], []⟩⟩ 1 dsEx deEx).share.start_date =
      [strftimeWPS dsEx] ∧
    (patchedNml ⟨⟨.boolv true, [], []⟩⟩ 1 dsEx deEx).share.end_date =
      [strftimeWPS deEx] :=
  prepare_namelist_accepts_bool_max_dom "/w" ⟨⟨.boolv true, [], []⟩⟩ dsEx deEx rfl

/-- Effect of one filesystem operation on a map from paths to file
contents. -/
def applyFsOp (fs : String → Option WpsNml) : FsOp → String → Option WpsNml
  | .removeSilent p => fun q => if q = p then none else fs q
  | .writeNml p d => fun q => if q = p then some d else fs q
  | .rename src dst => fun q => if q = dst then fs src else if q = src then none else fs q

/-- Modelled from the spec: an atomic replacement of `target` with `doc`
writes the new document to a temporary path and renames it over the target
("implementers should write to a temporary path and rename"). -/
def atomicReplaceTrace (target : String) (doc : WpsNml) (ops : List FsOp) : Prop :=
  ∃ tmp, tmp ≠ target ∧ ops = [.writeNml tmp doc, .rename tmp target]

/-- The concrete namelist document of the C5 counterexample. -/
def nmlEx2 : WpsNml := ⟨⟨.intv 2, ["a"], ["b"]⟩⟩

/-- C5 counterexample: at a concrete valid input, the patcher's filesystem
trace is `silentremove(target)` followed by a direct write to `target` — it
is not a write to a temporary path followed by a rename. -/
theorem prepare_namelist_no_tmp_rename :
    prepare_namelist "/w" nmlEx2 (.dt dsEx) (.dt deEx) =
      .ok (patchedNml nmlEx2 2 dsEx deEx,
        [.removeSilent (nmlPath "/w"),
         .writeNml (nmlPath "/w") (patchedNml nmlEx2 2 dsEx deEx)]) ∧
    ¬ atomicReplaceTrace (nmlPath "/w") (patchedNml nmlEx2 2 dsEx deEx)
        [.removeSilent (nmlPath "/w"),
         .writeNml (nmlPath "/w") (patchedNml nmlEx2 2 dsEx deEx)] := by
  constructor
  · rfl
  · rintro ⟨tmp, -, heq⟩
    simp at heq

/-- C5 (amended): the patcher replaces the namelist with `silentremove` of
the target followed by a direct write to the target — not a temporary-path
write plus rename and hence not atomic (between the two operations the file
is absent); but because the removal precedes the write, at no failure point
does old content remain alongside a partial new write: once the removal has
executed the target holds nothing, and whatever (possibly partial) content an
interrupted write leaves, it is never the old document. -/
theorem prepare_namelist_remove_then_write (wd : String) (nml : WpsNml) (d : Int)
    (ds de : Datetime) (hd : nml.share.max_dom = .intv d) (h1 : 1 ≤ d) :
    prepare_namelist wd nml (.dt ds) (.dt de) =
      .ok (patchedNml nml d.toNat ds de,
        [.removeSilent (nmlPath wd),
         .writeNml (nmlPath wd) (patchedNml nml d.toNat ds de)]) ∧
    (∀ fs : String → Option WpsNml,
      applyFsOp fs (.removeSilent (nmlPath wd)) (nmlPath wd) = none) ∧
    (∀ (fs : String → Option WpsNml) (old c : WpsNml),
      fs (nmlPath wd) = some old → old ≠ c →
      applyFsOp fs (.removeSilent (nmlPath wd)) (nmlPath wd) ≠ some old ∧
      applyFsOp (applyFsOp fs (.removeSilent (nmlPath wd)))
          (.writeNml (nmlPath wd) c) (nmlPath wd) ≠ some old) := by
  refine ⟨?_, ?_, ?_⟩
  · have h := prepare_namelist_ok wd nml ds de (by rw [hd]; rfl)
      (by rw [hd]; exact_mod_cast h1)
    rwa [hd] at h
  · intro fs
    simp [applyFsOp]
  · intro fs old c _ hne
    constructor
    · simp [applyFsOp]
    · simp only [applyFsOp, if_pos rfl]
      intro h
      exact hne ((Option.some_injective _ h.symm))

/-- Witness for C5 on a concrete document and filesystem. -/
theorem prepare_namelist_remove_then_write_witness :
    prepare_namelist "/w" nmlEx2 (.dt dsEx) (.dt deEx) =
      .ok (patchedNml nmlEx2 2 dsEx deEx,
        [.removeSilent (nmlPath "/w"),
         .writeNml (nmlPath "/w") (patchedNml nmlEx2 2 dsEx deEx)]) ∧
    applyFsOp (fun q => if q = nmlPath "/w" then some nmlEx2 else none)
        (.removeSilent (nmlPath "/w")) (nmlPath "/w") = none ∧
    applyFsOp (fun q => if q = nmlPath "/w" then some nmlEx2 else none)
        (.removeSilent (nmlPath "/w")) (nmlPath "/w") ≠ some nmlEx2 ∧
    applyFsOp (applyFsOp (fun q => if q = nmlPath "/w" then some nmlEx2 else none)
          (.removeSilent (nmlPath "/w")))
        (.writeNml (nmlPath "/w") (patchedNml nmlEx2 2 dsEx deEx)) (nmlPath "/w") ≠
      some nmlEx2 := by
  have h := prepare_namelist_remove_then_write "/w" nmlEx2 2 dsEx deEx rfl (by decide)
  have h3 := h.2.2 (fun q => if q = nmlPath "/w" then some nmlEx2 else none) nmlEx2
    (patchedNml nmlEx2 2 dsEx deEx) (by simp) (by decide)
  exact ⟨h.1, h.2.1 _, h3.1, h3.2⟩

/-! ## WorkflowDocumentBuilder: `wrfpy._scheduling` (src/wrfpy/wrfpy.py
lines 116-151)

The scheduling section is a `str.format` template; the Jinja escapes
`{{{{ START }}}}` render as literal `{{ START }}`.  The two `graph`
blocks encode the initial-cycle and repeating-cycle dependency graphs as
`=>`-chains, one chain per line. -/

/-- Shallow embedding of `wrfpy._scheduling`: the rendered section text for a
given initial-cycle start hour (already zero-filled by the caller) and repeat
interval in hours. -/
def scheduling (start_hour : String) (incr_hour : Nat) : String :=
  "[scheduling]\n  initial cycle point = \x7b\x7b START \x7d\x7d\n  final cycle time   = \x7b\x7b STOP \x7d\x7d\n  [[dependencies]]\n    # Initial cycle point\n    [[[R1/T"
    ++ start_hour ++
    "]]]\n      graph = \"\"\"\n        wrf_init => wrf_real => wrfda => wrf_run\n        wrf_init => obsproc_init => obsproc_run\n        obsproc_run => wrfda\n      \"\"\"\n    # Repeat every "
    ++ toString incr_hour ++ " hours, starting " ++ toString incr_hour ++
    " hours after initial cylce point\n    [[[+PT" ++ toString incr_hour ++ "H/PT"
    ++ toString incr_hour ++
    "H]]]\n      graph = \"\"\"\n        wrf_run[-PT2H] => wrf_init => wrf_real => wrfda => copy_urb => wrf_run\n        wrf_init => obsproc_init => obsproc_run\n        obsproc_run => wrfda\n      \"\"\"\n\n"

/-- The `=>`-chains of the initial-cycle `graph` block, one per line. -/
def initialCycleChains : List (List String) :=
  [["wrf_init", "wrf_real", "wrfda", "wrf_run"],
   ["wrf_init", "obsproc_init", "obsproc_run"],
   ["obsproc_run", "wrfda"]]

/-- The `=>`-chains of the repeating-cycle `graph` block, one per line. -/
def repeatCycleChains : List (List String) :=
  [["wrf_run[-PT2H]", "wrf_init", "wrf_real", "wrfda", "copy_urb", "wrf_run"],
   ["wrf_init", "obsproc_init", "obsproc_run"],
   ["obsproc_run", "wrfda"]]

/-- The dependency edges a chain `a => b => c ...` declares. -/
def chainEdges (c : List String) : List (String × String) := c.zip (c.drop 1)

/-- All dependency edges of a graph block. -/
def graphEdges (cs : List (List String)) : List (String × String) :=
  (cs.map chainEdges).flatten

/-- All task nodes a graph block mentions. -/
def graphNodes (cs : List (List String)) : List String := cs.flatten

/-- Substring search on character lists (needle, haystack). -/
def charsInfixOf (pat : List Char) : List Char → Bool
  | [] => pat.isEmpty
  | c :: rest => pat.isPrefixOf (c :: rest) || charsInfixOf pat rest

/-- C8 counterexample: the repeating-cycle graph does not differ from the
initial-cycle graph only by the added previous-cycle dependency: it inserts a
new node `copy_urb` (absent from the initial graph) between `wrfda` and
`wrf_run`, dropping the initial graph's `wrfda => wrf_run` edge; the chain
rendered in the generated section confirms it. -/
theorem scheduling_repeat_graph_counterexample :
    ("wrfda", "copy_urb") ∈ graphEdges repeatCycleChains ∧
    ("wrfda", "copy_urb") ≠ ("wrf_run[-PT2H]", "wrf_init") ∧
    "copy_urb" ∉ graphNodes initialCycleChains ∧
    ("wrfda", "wrf_run") ∈ graphEdges initialCycleChains ∧
    ("wrfda", "wrf_run") ∉ graphEdges repeatCycleChains ∧
    charsInfixOf
      (String.intercalate " => "
        ["wrf_run[-PT2H]", "wrf_init", "wrf_real", "wrfda", "copy_urb", "wrf_run"]).data
      (scheduling "00" 6).data = true := by
  refine ⟨by decide, by decide, by decide, by decide, by decide, by decide⟩

/-- C8 (amended): the initial-cycle graph is
`init => real => da => run`, `init => obsInit => obsRun` and `obsRun => da`;
the repeating-cycle graph adds the cross-cycle edge
`wrf_run[-PT2H] => wrf_init` (the `run` task from two hours earlier — a
hardcoded `-PT2H`, not "two cycle points" — so it equals two cycle points
only when the repeat interval is 1 hour) and moreover inserts the extra task
`copy_urb` between `wrfda` and `wrf_run`, replacing the initial graph's
`wrfda => wrf_run` edge by `wrfda => copy_urb => wrf_run`; both graph blocks
appear verbatim in the rendered scheduling section. -/
theorem scheduling_graphs :
    graphEdges initialCycleChains =
      [("wrf_init", "wrf_real"), ("wrf_real", "wrfda"), ("wrfda", "wrf_run"),
       ("wrf_init", "obsproc_init"), ("obsproc_init", "obsproc_run"),
       ("obsproc_run", "wrfda")] ∧
    graphEdges repeatCycleChains =
      [("wrf_run[-PT2H]", "wrf_init"), ("wrf_init", "wrf_real"),
       ("wrf_real", "wrfda"), ("wrfda", "copy_urb"), ("copy_urb", "wrf_run"),
       ("wrf_init", "obsproc_init"), ("obsproc_init", "obsproc_run"),
       ("obsproc_run", "wrfda")] ∧
    (∀ c ∈ initialCycleChains,
      charsInfixOf (String.intercalate " => " c).data (scheduling "00" 6).data = true) ∧
    (∀ c ∈ repeatCycleChains,
      charsInfixOf (String.intercalate " => " c).data (scheduling "00" 6).data = true) := by
  refine ⟨by decide, by decide, by decide, by decide⟩

/-! ## Runtime blocks: `wrfpy._runtime_real`, `_runtime_wrf`,
`_runtime_obsproc` (src/wrfpy/wrfpy.py lines 200-315)

Each builder checks the configured batch-script value
(`config['options_slurm']['slurm_<task>.exe']`, modelled as a string whose
Python truthiness is non-emptiness): if truthy, method `"slurm"` is chosen
and the script file's content is read and re-indented with
`.replace('\n', '\n      ')`; otherwise method `"background"` with empty
directives.  The file reader is passed in as a function, the configured
value as a string. -/

/-- The six-space indentation that precedes `{directives}` in the runtime
templates. -/
def directivesIndent : String := "      "

/-- Python's `.replace('\n', '\n      ')` on a character list. -/
def replaceNlIndent : List Char → List Char
  | [] => []
  | c :: cs =>
    if c = '\n' then '\n' :: (directivesIndent.data ++ replaceNlIndent cs)
    else c :: replaceNlIndent cs

/-- Python's `myfile.read().replace('\n', '\n      ')`. -/
def pyReplaceIndent (s : String) : String := String.mk (replaceNlIndent s.data)

/-- Method selection of `wrfpy._runtime_real` (line 225): `"slurm"` iff the
configured `slurm_real.exe` value is truthy. -/
def realMethod (slurmReal : String) : String :=
  if slurmReal ≠ "" then "slurm" else "background"

/-- Directives of `wrfpy._runtime_real` (lines 227-231). -/
def realDirectives (slurmReal : String) (readFile : String → String) : String :=
  if slurmReal ≠ "" then pyReplaceIndent (readFile slurmReal) else ""

/-- Method selection of `wrfpy._runtime_wrf` (line 266). -/
def wrfMethod (slurmWrf : String) : String :=
  if slurmWrf ≠ "" then "slurm" else "background"

/-- Directives of `wrfpy._runtime_wrf` (lines 268-272). -/
def wrfDirectives (slurmWrf : String) (readFile : String → String) : String :=
  if slurmWrf ≠ "" then pyReplaceIndent (readFile slurmWrf) else ""

/-- Method selection of `wrfpy._runtime_obsproc` (line 301). -/
def obsprocMethod (slurmObsproc : String) : String :=
  if slurmObsproc ≠ "" then "slurm" else "background"

/-- Directives of `wrfpy._runtime_obsproc` (lines 303-308). -/
def obsprocDirectives (slurmObsproc : String) (readFile : String → String) : String :=
  if slurmObsproc ≠ "" then pyReplaceIndent (readFile slurmObsproc) else ""

/-- Rendered `[[wrf_real]]` runtime block of `wrfpy._runtime_real`. -/
def runtime_real (wrf_run_dir slurmReal : String) (readFile : String → String) : String :=
  "\n  [[wrf_real]]\n    script = \"\"\"\n#!/usr/bin/env bash\nif [ -n \"$SLURM_CPUS_PER_TASK\" ]; then\n  omp_threads=$SLURM_CPUS_PER_TASK\nelse\n  omp_threads=1\nfi\nexport OMP_NUM_THREADS=$omp_threads\nsrun ./real.exe\n\"\"\"\n    [[[environment]]]\n      WORKDIR = "
    ++ wrf_run_dir ++
    "\n      CYLC_TASK_WORK_DIR = $WORKDIR\n    [[[job submission]]]\n      method = "
    ++ realMethod slurmReal ++ "\n    [[[directives]]]\n      "
    ++ realDirectives slurmReal readFile ++ "\n"

/-- Rendered `[[wrf_run]]` runtime block of `wrfpy._runtime_wrf`. -/
def runtime_wrf (wrf_run_dir slurmWrf : String) (readFile : String → String) : String :=
  "\n  [[wrf_run]]\n    script = \"\"\"\n#!/usr/bin/env bash\nif [ -n \"$SLURM_CPUS_PER_TASK\" ]; then\n  omp_threads=$SLURM_CPUS_PER_TASK\nelse\n  omp_threads=1\nfi\nexport OMP_NUM_THREADS=$omp_threads\nsrun ./wrf.exe\n\"\"\"\n    [[[environment]]]\n      WORKDIR = "
    ++ wrf_run_dir ++
    "\n      CYLC_TASK_WORK_DIR = $WORKDIR\n    [[[job submission]]]\n      method = "
    ++ wrfMethod slurmWrf ++ "\n    [[[directives]]]\n      "
    ++ wrfDirectives slurmWrf readFile ++ "\n"

/-- Rendered `[[obsproc_run]]` runtime block of `wrfpy._runtime_obsproc`. -/
def runtime_obsproc (obsproc_dir slurmObsproc : String) (readFile : String → String) : String :=
  "\n  [[obsproc_run]]\n    script = \"\"\"\n#!/usr/bin/env bash\nsrun ./obsproc.exe\n\"\"\"\n    [[[environment]]]\n      WORKDIR = "
    ++ obsproc_dir ++
    "\n      CYLC_TASK_WORK_DIR = $WORKDIR\n    [[[job submission]]]\n      method = "
    ++ obsprocMethod slurmObsproc ++ "\n    [[[directives]]]\n      "
    ++ obsprocDirectives slurmObsproc readFile ++ "\n"

/-- Split a character list at newlines, `str.split('\n')`-style: always at
least one line; a trailing newline yields a final empty line. -/
def splitNl : List Char → List (List Char)
  | [] => [[]]
  | c :: cs =>
    if c = '\n' then [] :: splitNl cs
    else
      match splitNl cs with
      | [] => [[c]]
      | l :: ls => (c :: l) :: ls

/-- Join line fragments with a separator. -/
def joinSep (sep : List Char) : List (List Char) → List Char
  | [] => []
  | [l] => l
  | l :: ls => l ++ sep ++ joinSep sep ls

/-- Modelled from the spec: "the script's content with each line prefixed by
the template's indentation". -/
def prefixEachLine (ind s : String) : String :=
  String.mk (joinSep ['\n'] ((splitNl s.data).map (fun l => ind.data ++ l)))

theorem splitNl_ne_nil (cs : List Char) : splitNl cs ≠ [] := by
  cases cs with
  | nil => simp [splitNl]
  | cons c cs =>
    simp only [splitNl]
    split
    · simp
    · split <;> simp

theorem replaceNlIndent_eq_joinSep (cs : List Char) :
    replaceNlIndent cs = joinSep ('\n' :: directivesIndent.data) (splitNl cs) := by
  induction cs with
  | nil => rfl
  | cons c cs ih =>
    by_cases hc : c = '\n'
    · subst hc
      simp only [replaceNlIndent, if_pos rfl, splitNl]
      obtain ⟨l, ls, hls⟩ : ∃ l ls, splitNl cs = l :: ls := by
        cases h : splitNl cs with
        | nil => exact absurd h (splitNl_ne_nil cs)
        | cons l ls => exact ⟨l, ls, rfl⟩
      rw [hls]
      rw [ih, hls]
      rfl
    · simp only [replaceNlIndent, if_neg hc, splitNl]
      obtain ⟨l, ls, hls⟩ : ∃ l ls, splitNl cs = l :: ls := by
        cases h : splitNl cs with
        | nil => exact absurd h (splitNl_ne_nil cs)
        | cons l ls => exact ⟨l, ls, rfl⟩
      rw [hls, ih, hls]
      cases ls with
      | nil => rfl
      | cons l' ls' => simp [joinSep]

theorem indent_joinSep (ind : List Char) :
    ∀ ls : List (List Char), ls ≠ [] →
      ind ++ joinSep ('\n' :: ind) ls = joinSep ['\n'] (ls.map (fun l => ind ++ l)) := by
  intro ls
  induction ls with
  | nil => intro h; cases h rfl
  | cons l ls ih =>
    intro _
    cases ls with
    | nil => rfl
    | cons l' ls' =>
      have h := ih (by simp)
      have key : joinSep ['\n'] ((l :: l' :: ls').map (fun t => ind ++ t)) =
          (ind ++ l) ++ ['\n'] ++ joinSep ['\n'] ((l' :: ls').map (fun t => ind ++ t)) := by
        simp only [List.map_cons]
        rfl
      rw [key, ← h]
      show ind ++ (l ++ ('\n' :: ind) ++ joinSep ('\n' :: ind) (l' :: ls')) = _
      simp [List.append_assoc]

/-- The re-indented script content, preceded by the template's own
indentation, is exactly the script with every line prefixed by that
indentation. -/
theorem indent_replace_eq_prefixEachLine (s : String) :
    directivesIndent ++ pyReplaceIndent s = prefixEachLine directivesIndent s := by
  apply String.ext
  show (directivesIndent ++ pyReplaceIndent s).data = _
  rw [String.data_append]
  show directivesIndent.data ++ (String.mk (replaceNlIndent s.data)).data = _
  rw [show (String.mk (replaceNlIndent s.data)).data = replaceNlIndent s.data from rfl]
  rw [replaceNlIndent_eq_joinSep]
  rw [indent_joinSep directivesIndent.data (splitNl s.data) (splitNl_ne_nil s.data)]
  rfl

/-- Selection property shared by the three per-task if-expressions. -/
theorem select_spec (p : String) (rf : String → String) :
    ((if p ≠ "" then "slurm" else "background") = "slurm" ↔ p ≠ "") ∧
    ((if p ≠ "" then "slurm" else "background") = "background" ↔ p = "") ∧
    (p = "" → (if p ≠ "" then pyReplaceIndent (rf p) else "") = "") ∧
    (p ≠ "" → directivesIndent ++ (if p ≠ "" then pyReplaceIndent (rf p) else "") =
       prefixEachLine directivesIndent (rf p)) := by
  by_cases h : p = ""
  · subst h
    refine ⟨?_, ?_, ?_, ?_⟩ <;> simp
  · refine ⟨?_, ?_, ?_, ?_⟩
    · simp [h]
    · rw [if_pos h]
      constructor
      · intro hb; simp at hb
      · intro hb; exact absurd hb h
    · intro hb; exact absurd hb h
    · intro _
      rw [if_pos h]
      exact indent_replace_eq_prefixEachLine (rf p)

/-- C9: for each executable task (`real`, `run`, `obsproc`) the builder
selects the batch-queue method (`"slurm"`) iff the configured batch-script
value is non-empty, and otherwise silently selects `"background"` with empty
directives; when batch-queue is selected, the rendered directives block —
the template's six-space indentation followed by the re-indented script
content — equals the script's content with each line prefixed by that
indentation. -/
theorem runtime_method_and_directives (p : String) (readFile : String → String) :
    ((realMethod p = "slurm" ↔ p ≠ "") ∧ (realMethod p = "background" ↔ p = "") ∧
     (p = "" → realDirectives p readFile = "") ∧
     (p ≠ "" → directivesIndent ++ realDirectives p readFile =
        prefixEachLine directivesIndent (readFile p))) ∧
    ((wrfMethod p = "slurm" ↔ p ≠ "") ∧ (wrfMethod p = "background" ↔ p = "") ∧
     (p = "" → wrfDirectives p readFile = "") ∧
     (p ≠ "" → directivesIndent ++ wrfDirectives p readFile =
        prefixEachLine directivesIndent (readFile p))) ∧
    ((obsprocMethod p = "slurm" ↔ p ≠ "") ∧ (obsprocMethod p = "background" ↔ p = "") ∧
     (p = "" → obsprocDirectives p readFile = "") ∧
     (p ≠ "" → directivesIndent ++ obsprocDirectives p readFile =
        prefixEachLine directivesIndent (readFile p))) :=
  ⟨select_spec p readFile, select_spec p readFile, select_spec p readFile⟩

/-- The file reader of the C9 witness: one batch script of two lines. -/
def c9Read : String → String := fun _ => "#SBATCH -N 1\n#SBATCH -t 10"

/-- Witness for C9: no script configured gives `background` and empty
directives for all three tasks; a configured script gives `slurm` and the
rendered directives block is the script with each line indented. -/
theorem runtime_method_and_directives_witness :
    realMethod "" = "background" ∧ realDirectives "" c9Read = "" ∧
    wrfMethod "" = "background" ∧ obsprocMethod "" = "background" ∧
    realMethod "/cfg/real.slurm" = "slurm" ∧
    directivesIndent ++ realDirectives "/cfg/real.slurm" c9Read =
      prefixEachLine directivesIndent (c9Read "/cfg/real.slurm") ∧
    prefixEachLine directivesIndent (c9Read "/cfg/real.slurm") =
      "      #SBATCH -N 1\n      #SBATCH -t 10" := by
  have t1 := runtime_method_and_directives "" c9Read
  have t2 := runtime_method_and_directives "/cfg/real.slurm" c9Read
  exact ⟨t1.1.2.1.mpr rfl, t1.1.2.2.1 rfl, t1.2.1.2.1.mpr rfl, t1.2.2.2.1.mpr rfl,
         t2.1.1.mpr (by decide), t2.1.2.2.2 (by decide), by rfl⟩
